import Mathlib

/-!
Shallow embedding of the command/state coordination core of hyprswitch:
the daemon command handlers `switch`, `close` and `init` from
`src/daemon/handle_fns.rs`, together with the data model they operate on
(`src/cli.rs`, `src/lib.rs`, and collaborator interfaces).

Machine integers are modelled as `Nat` with explicit `% 2^16` where u16
overflow matters.  External collaborators (`collect_data`, `find_next`,
`switch_to_active`, `activate_submap`, `deactivate_submap`, channel
send/receive) are modelled by an `Ext` record of result values; each handler
returns its `anyhow::Result`, the updated shared state, the process-wide
`ACTIVE` flag, and a trace of the side effects it performed, in order.
-/

namespace Hyprswitch

/-- Switch dimension, from `SwitchType` in `src/cli.rs`. -/
inductive SwitchType
  | client
  | workspace
  | monitor
deriving DecidableEq, Repr

/-- Modifier keys, from `ModKey` in `src/cli.rs`. -/
inductive ModKey
  | altL | altR | ctrlL | ctrlR | superL | superR | shiftL | shiftR
deriving DecidableEq, Repr

/-- GUI close behaviour, from `CloseType` in `src/cli.rs`. -/
inductive CloseType
  | default
  | modKeyRelease
deriving DecidableEq, Repr

/-- Reverse-switch key, from `ReverseKey` in `src/cli.rs`. -/
inductive ReverseKey
  | mod (m : ModKey)
  | key (k : String)
deriving DecidableEq, Repr

/-- Session configuration, from `SimpleConf` in `src/cli.rs` (the `Config`
stored as `simple_config` in the shared state). -/
structure Config where
  include_special_workspaces : Bool
  ignore_workspaces : Bool
  ignore_monitors : Bool
  filter_same_class : Bool
  filter_current_workspace : Bool
  filter_current_monitor : Bool
  sort_recent : Bool
  switch_type : SwitchType
deriving DecidableEq, Repr

/-- GUI configuration, from `GuiConf` in `src/cli.rs` (the `GuiConfig`
stored in the shared state and passed to `activate_submap`). -/
structure GuiConfig where
  mod_key : ModKey
  key : String
  reverse_key : ReverseKey
  close : CloseType
  max_switch_offset : Nat
  hide_active_window_border : Bool
  monitors : Option (List String)
  show_workspaces_on_all_monitors : Bool
deriving DecidableEq, Repr

/-- The currently selected target: `Client(id) | Workspace(id) | Monitor(id)
| Unknown`.  Client addresses are modelled as `Nat`, workspace ids and
monitor ids (`MonitorId = i64` in `src/lib.rs`) as `Int`. -/
inductive Active
  | client (addr : Nat)
  | workspace (ws : Int)
  | monitor (mon : Int)
  | unknown
deriving DecidableEq, Repr

/-- The triple of "currently active" values returned by `collect_data`:
optional client address, workspace id, monitor id (components `.0`, `.1`,
`.2` read by `init`). -/
def ActiveTriple := Option Nat × Option Int × Option Int

/-- Modelled from the spec: the `target_snapshot` / `hypr_data` returned by
the external TargetCollector (`collect_data`) — the enumerable universe of
clients, workspaces and monitors over which navigation occurs.  Its type is
not under `src/`; the core only stores it and passes it to collaborators. -/
structure HyprData where
  clients : List Nat
  workspaces : List Int
  monitors : List Int
deriving DecidableEq, Repr

/-- A launchable-program entry of `launcher.execs`: run command, optional
working directory, run-in-terminal flag (the `(run, path, terminal)` triple
read by `close`). -/
structure Exec where
  run : String
  path : Option String
  terminal : Bool
deriving DecidableEq, Repr

/-- Modelled from the spec: the launcher sub-state of the shared state
(`lock.launcher`), holding the optional `pending_launch_selection`
(`selected`, a u16 index modelled as `Nat`) and the launch list `execs`.
Its declaring type is not under `src/`; `handle_fns.rs` reads and writes
exactly these two fields. -/
structure LauncherState where
  selected : Option Nat
  execs : List Exec
deriving DecidableEq, Repr

/-- Modelled from the spec: the `SelectionState` behind the shared lock
(`lock` in `handle_fns.rs`).  Its declaring type is not under `src/`;
`handle_fns.rs` reads and writes exactly the fields `active`, `launcher`,
`simple_config`, `gui_config` and `hypr_data`. -/
structure SharedData where
  active : Active
  launcher : LauncherState
  simple_config : Config
  gui_config : GuiConfig
  hypr_data : HyprData
deriving DecidableEq, Repr

/-- The dispatch payload used by `switch`: the `reverse` flag and the `offset`
step (a u8 in `SimpleOpts` of `src/cli.rs`, modelled as `Nat`; the
`as u16` cast in `switch` is the identity on u8 values). -/
structure Command where
  reverse : Bool
  offset : Nat
deriving DecidableEq, Repr

/-- The three hand-off events sent to the GUI actor. -/
inductive GUISend
  | new
  | refresh
  | hide
deriving DecidableEq, Repr

/-- Observable side effects of a handler invocation, in program order.
`lockAcquire`/`lockRelease` delimit the critical section on the shared
state; `send`/`recv` are the blocking channel operations of the hand-off. -/
inductive Effect
  | lockAcquire
  | lockRelease
  | collectData
  | runProgram (run : String) (path : Option String) (terminal : Bool)
  | switchToActive (a : Active)
  | activateSubmap
  | deactivateSubmap
  | setActiveFlag (b : Bool)
  | send (g : GUISend) (client_id : Nat)
  | recv
  | clearRecentClients
  | reloadDesktopMaps
deriving DecidableEq, Repr

/-- `anyhow::Context` wrapping: prefix an error with a context message. -/
def withCtx (ctx msg : String) : String := ctx ++ ": " ++ msg

/-- Modelled from the spec: the results of the external collaborators for one
handler invocation (TargetCollector, Navigator, focus primitive, keybinding
resource, and the two hand-off channels).  Their implementations are not
under `src/`; only their `Result` types are observed by the core. -/
structure Ext where
  collect_data : Config → Except String (HyprData × ActiveTriple)
  find_next : SwitchType → Command → HyprData → Active → Except String Active
  switch_to_active : Active → HyprData → Except String Unit
  activate_submap : GuiConfig → Except String Unit
  deactivate_submap : Except String Unit
  sendResult : GUISend → Except String Unit
  recvResult : Except String Unit

/-- Outcome of one handler invocation: the returned `anyhow::Result`, the
shared state after the call, the process-wide `ACTIVE` flag after the call,
and the ordered effect trace. -/
structure StepOut where
  res : Except String Unit
  state : SharedData
  activeFlag : Bool
  trace : List Effect
deriving Repr

/-- The launcher-index update of `switch` (`handle_fns.rs` lines 19-23):
`saturating_sub` on reverse, otherwise u16 wrapping addition followed by
`min` against `(exec_len - 1) as u16` (truncating cast, `% 2^16`). -/
def launcherStep (reverse : Bool) (sel offset exec_len : Nat) : Nat :=
  if reverse then sel - offset
  else Nat.min ((sel + offset) % 65536) ((exec_len - 1) % 65536)

/-- The projection of the currently-active triple onto the dimension selected
by `config.switch_type` (`handle_fns.rs` lines 93-115). -/
def projectActive : SwitchType → ActiveTriple → Active
  | .client, (some addr, _, _) => .client addr
  | .client, (none, _, _) => .unknown
  | .workspace, (_, some ws, _) => .workspace ws
  | .workspace, (_, none, _) => .unknown
  | .monitor, (_, _, some mon) => .monitor mon
  | .monitor, (_, _, none) => .unknown

/-- The hand-off tail shared by `switch` (event `Refresh`): blocking send,
then blocking receive, each propagating a context-wrapped error. -/
def handoff (g : GUISend) (s : SharedData) (flag : Bool) (client_id : Nat)
    (ext : Ext) (tr : List Effect) : StepOut :=
  let tr := tr ++ [.send g client_id]
  match ext.sendResult g with
  | .error e =>
      { res := .error (withCtx "Unable to refresh the GUI" e),
        state := s, activeFlag := flag, trace := tr }
  | .ok _ =>
      let tr := tr ++ [.recv]
      match ext.recvResult with
      | .error e =>
          { res := .error (withCtx "Unable to receive GUI update" e),
            state := s, activeFlag := flag, trace := tr }
      | .ok _ => { res := .ok (), state := s, activeFlag := flag, trace := tr }

/-- `switch` from `handle_fns.rs` (lines 10-44): under the lock, either move
the launcher selection (early `Ok` return when the launch list is empty) or
ask `find_next` for the new `active`; after releasing the lock, hand off a
`Refresh` event. -/
def switch (s : SharedData) (flag : Bool) (command : Command)
    (client_id : Nat) (ext : Ext) : StepOut :=
  match s.launcher.selected with
  | some sel =>
      if s.launcher.execs.length = 0 then
        { res := .ok (), state := s, activeFlag := flag,
          trace := [.lockAcquire, .lockRelease] }
      else
        let sel := launcherStep command.reverse sel command.offset
          s.launcher.execs.length
        let s := { s with launcher := { s.launcher with selected := some sel } }
        handoff .refresh s flag client_id ext [.lockAcquire, .lockRelease]
  | none =>
      match ext.find_next s.simple_config.switch_type command s.hypr_data
          s.active with
      | .error e =>
          { res := .error e, state := s, activeFlag := flag,
            trace := [.lockAcquire, .lockRelease] }
      | .ok a =>
          let s := { s with active := a }
          handoff .refresh s flag client_id ext [.lockAcquire, .lockRelease]

/-- The cleanup tail of `close` (`handle_fns.rs` lines 65-81), entered after
the locked section: `deactivate_submap()?`, clear the `ACTIVE` flag, hand
off `Hide`, then the two fire-and-forget cleanup collaborators. -/
def closeCleanup (s : SharedData) (flag : Bool) (client_id : Nat) (ext : Ext)
    (tr : List Effect) : StepOut :=
  let tr := tr ++ [.deactivateSubmap]
  match ext.deactivate_submap with
  | .error e => { res := .error e, state := s, activeFlag := flag, trace := tr }
  | .ok _ =>
      let tr := tr ++ [.setActiveFlag false, .send .hide client_id]
      match ext.sendResult .hide with
      | .error e =>
          { res := .error (withCtx "Unable to refresh the GUI" e),
            state := s, activeFlag := false, trace := tr }
      | .ok _ =>
          let tr := tr ++ [.recv]
          match ext.recvResult with
          | .error e =>
              { res := .error (withCtx "Unable to receive GUI update" e),
                state := s, activeFlag := false, trace := tr }
          | .ok _ =>
              { res := .ok (), state := s, activeFlag := false,
                trace := tr ++ [.clearRecentClients, .reloadDesktopMaps] }

/-- `close` from `handle_fns.rs` (lines 46-82): under the lock, when `kill`
is false either launch the selected program (warn when the index is out of
range) or commit focus via `switch_to_active` (whose error propagates with
`?`, dropping the lock); then the cleanup tail. -/
def close (s : SharedData) (flag : Bool) (kill : Bool) (client_id : Nat)
    (ext : Ext) : StepOut :=
  if kill then
    closeCleanup s flag client_id ext [.lockAcquire, .lockRelease]
  else
    match s.launcher.selected with
    | some sel =>
        match s.launcher.execs[sel]? with
        | some ex =>
            closeCleanup s flag client_id ext
              [.lockAcquire, .runProgram ex.run ex.path ex.terminal,
                .lockRelease]
        | none =>
            closeCleanup s flag client_id ext [.lockAcquire, .lockRelease]
    | none =>
        match ext.switch_to_active s.active s.hypr_data with
        | .error e =>
            { res := .error e, state := s, activeFlag := flag,
              trace := [.lockAcquire, .switchToActive s.active, .lockRelease] }
        | .ok _ =>
            closeCleanup s flag client_id ext
              [.lockAcquire, .switchToActive s.active, .lockRelease]

/-- `init` from `handle_fns.rs` (lines 84-141): `collect_data(config)?` with
context, project the active triple, overwrite `active`, `simple_config`,
`gui_config` and `hypr_data` under the lock (the `launcher` field is not
written), then `activate_submap(gui_config)?`, set the `ACTIVE` flag, and
hand off a `New` event. -/
def init (s : SharedData) (flag : Bool) (config : Config)
    (gui_config : GuiConfig) (client_id : Nat) (ext : Ext) : StepOut :=
  match ext.collect_data config with
  | .error e =>
      { res := .error (withCtx "Failed to collect data with config" e),
        state := s, activeFlag := flag, trace := [.collectData] }
  | .ok (clients_data, activeT) =>
      let active := projectActive config.switch_type activeT
      let s := { s with active := active, simple_config := config,
                        gui_config := gui_config, hypr_data := clients_data }
      let tr : List Effect :=
        [.collectData, .lockAcquire, .lockRelease, .activateSubmap]
      match ext.activate_submap gui_config with
      | .error e =>
          { res := .error e, state := s, activeFlag := flag, trace := tr }
      | .ok _ =>
          handoff .new s true client_id ext (tr ++ [.setActiveFlag true])

/-! Concrete sample values used by witnesses and counterexamples. -/

/-- A sample session configuration (all filters off, switch type `Client`). -/
def sampleConfig : Config :=
  { include_special_workspaces := false, ignore_workspaces := false,
    ignore_monitors := false, filter_same_class := false,
    filter_current_workspace := false, filter_current_monitor := false,
    sort_recent := false, switch_type := .client }

/-- A sample GUI configuration. -/
def sampleGuiConfig : GuiConfig :=
  { mod_key := .superL, key := "tab", reverse_key := .mod .shiftL,
    close := .default, max_switch_offset := 6,
    hide_active_window_border := false, monitors := none,
    show_workspaces_on_all_monitors := false }

/-- A sample target snapshot. -/
def sampleHyprData : HyprData :=
  { clients := [7, 42], workspaces := [1], monitors := [0] }

/-- A sample launchable-program entry. -/
def sampleExec : Exec := { run := "kitty", path := none, terminal := false }

/-- A sample shared state: no launcher selection, `active = Unknown`. -/
def sampleState : SharedData :=
  { active := .unknown, launcher := { selected := none, execs := [] },
    simple_config := sampleConfig, gui_config := sampleGuiConfig,
    hypr_data := sampleHyprData }

/-- Collaborators that all succeed: `collect_data` returns the sample
snapshot with active client 42, `find_next` keeps the current target. -/
def extOk : Ext :=
  { collect_data := fun _ => .ok (sampleHyprData, (some 42, none, none)),
    find_next := fun _ _ _ a => .ok a,
    switch_to_active := fun _ _ => .ok (),
    activate_submap := fun _ => .ok (),
    deactivate_submap := .ok (),
    sendResult := fun _ => .ok (),
    recvResult := .ok () }

/-! Trace predicates. -/

/-- Scans a trace with the current lock depth and checks that every channel
operation (`send`/`recv`) happens at depth 0, i.e. outside the critical
section on the shared state. -/
def chanOpsUnlocked : List Effect → Nat → Bool
  | [], _ => true
  | .lockAcquire :: rest, d => chanOpsUnlocked rest (d + 1)
  | .lockRelease :: rest, d => chanOpsUnlocked rest (d - 1)
  | .send _ _ :: rest, d => (d == 0) && chanOpsUnlocked rest d
  | .recv :: rest, d => (d == 0) && chanOpsUnlocked rest d
  | _ :: rest, d => chanOpsUnlocked rest d

/-- True iff a trace contains a focus-commit (`switch_to_active`) or a
program-launch (`run_program`) effect. -/
def hasFocusOrLaunch : List Effect → Bool
  | [] => false
  | .runProgram _ _ _ :: _ => true
  | .switchToActive _ :: _ => true
  | _ :: rest => hasFocusOrLaunch rest

/-! Claim theorems. -/

/-- Claim C5: for every state in launcher sub-mode (`selected` present) whose
launch list is empty, `switch` is a no-op: the shared state and the `ACTIVE`
flag are unchanged, the trace holds no hand-off (only the lock
acquire/release pair), and the result is `Ok`. -/
theorem C5_switch_empty_execs_noop (s : SharedData) (flag : Bool)
    (cmd : Command) (cid : Nat) (ext : Ext)
    (hsel : s.launcher.selected.isSome = true)
    (hexecs : s.launcher.execs = []) :
    (switch s flag cmd cid ext).res = .ok () ∧
    (switch s flag cmd cid ext).state = s ∧
    (switch s flag cmd cid ext).activeFlag = flag ∧
    (switch s flag cmd cid ext).trace = [.lockAcquire, .lockRelease] := by
  obtain ⟨sel, h⟩ := Option.isSome_iff_exists.mp hsel
  simp [switch, h, hexecs]

/-- Witness for C5 at a concrete state with `selected = some 0` and an empty
launch list. -/
theorem C5_switch_empty_execs_noop_witness :
    (switch { sampleState with launcher := { selected := some 0, execs := [] } }
        false { reverse := false, offset := 1 } 0 extOk).res = .ok () ∧
    (switch { sampleState with launcher := { selected := some 0, execs := [] } }
        false { reverse := false, offset := 1 } 0 extOk).state =
      { sampleState with launcher := { selected := some 0, execs := [] } } ∧
    (switch { sampleState with launcher := { selected := some 0, execs := [] } }
        false { reverse := false, offset := 1 } 0 extOk).activeFlag = false ∧
    (switch { sampleState with launcher := { selected := some 0, execs := [] } }
        false { reverse := false, offset := 1 } 0 extOk).trace =
      [.lockAcquire, .lockRelease] :=
  C5_switch_empty_execs_noop _ _ _ _ _ rfl rfl

/-- Claim C6: the projection `projectActive` (the `match` on
`config.switch_type` in `init`) is a total function: for every triple it
yields `Client`/`Workspace`/`Monitor` of the component selected by the
switch type when that component is present, and `Unknown` when it is absent;
in particular switch type `Client` with active client 42 yields `Client 42`,
and with no active client yields `Unknown`, as stored by `init`. -/
theorem C6_projectActive_total (addr : Nat) (ws mon : Int)
    (o₁ : Option Nat) (o₂ o₃ : Option Int) :
    projectActive .client (some addr, o₂, o₃) = .client addr ∧
    projectActive .client (none, o₂, o₃) = .unknown ∧
    projectActive .workspace (o₁, some ws, o₃) = .workspace ws ∧
    projectActive .workspace (o₁, none, o₃) = .unknown ∧
    projectActive .monitor (o₁, o₂, some mon) = .monitor mon ∧
    projectActive .monitor (o₁, o₂, none) = .unknown ∧
    (init sampleState false sampleConfig sampleGuiConfig 0 extOk).state.active
      = .client 42 ∧
    (init sampleState false sampleConfig sampleGuiConfig 0
        { extOk with collect_data :=
            fun _ => Except.ok (sampleHyprData, (none, none, none))
        }).state.active
      = .unknown :=
  ⟨rfl, rfl, rfl, rfl, rfl, rfl, rfl, rfl⟩

/-- Claim C7: `close` with `kill = true` performs no focus-commit
(`switch_to_active`) and no program-launch (`run_program`) effect, for every
state, flag, caller and collaborator outcome. -/
theorem C7_close_kill_no_focus_or_launch (s : SharedData) (flag : Bool)
    (cid : Nat) (ext : Ext) :
    hasFocusOrLaunch (close s flag true cid ext).trace = false := by
  cases h₁ : ext.deactivate_submap <;>
    cases h₂ : ext.sendResult .hide <;>
      cases h₃ : ext.recvResult <;>
        simp [close, closeCleanup, h₁, h₂, h₃, hasFocusOrLaunch]

/-- Claim C8: if `collect_data` fails, `init` returns the context-wrapped
error, leaves the shared state and the `ACTIVE` flag unchanged, and its
trace shows no keybinding acquisition, no flag write and no hand-off — the
daemon stays idle. -/
theorem C8_init_collect_fail (s : SharedData) (flag : Bool) (config : Config)
    (gcfg : GuiConfig) (cid : Nat) (ext : Ext) (e : String)
    (h : ext.collect_data config = .error e) :
    (init s flag config gcfg cid ext).res =
      .error (withCtx "Failed to collect data with config" e) ∧
    (init s flag config gcfg cid ext).state = s ∧
    (init s flag config gcfg cid ext).activeFlag = flag ∧
    (init s flag config gcfg cid ext).trace = [.collectData] := by
  simp [init, h]

/-- Witness for C8 with a collaborator whose `collect_data` fails. -/
theorem C8_init_collect_fail_witness :
    (init sampleState false sampleConfig sampleGuiConfig 0
        { extOk with collect_data := fun _ => .error "no compositor" }).res =
      .error (withCtx "Failed to collect data with config" "no compositor") ∧
    (init sampleState false sampleConfig sampleGuiConfig 0
        { extOk with collect_data := fun _ => .error "no compositor" }).state =
      sampleState ∧
    (init sampleState false sampleConfig sampleGuiConfig 0
        { extOk with collect_data := fun _ => .error "no compositor"
        }).activeFlag = false ∧
    (init sampleState false sampleConfig sampleGuiConfig 0
        { extOk with collect_data := fun _ => .error "no compositor" }).trace =
      [.collectData] :=
  C8_init_collect_fail _ _ _ _ _ _ "no compositor" rfl

/-- Claim C9: in every execution of `switch` and of `close`, all channel
operations (the blocking send of the hand-off event and the blocking receive
of the acknowledgement) happen at lock depth 0: the state lock is released
before either channel operation, for every state, command, `kill` value and
collaborator outcome. -/
theorem C9_channel_ops_outside_lock (s : SharedData) (flag : Bool)
    (cmd : Command) (cid : Nat) (kill : Bool) (ext : Ext) :
    chanOpsUnlocked (switch s flag cmd cid ext).trace 0 = true ∧
    chanOpsUnlocked (close s flag kill cid ext).trace 0 = true := by
  constructor
  · cases hsel : s.launcher.selected with
    | some sel =>
        by_cases hlen : s.launcher.execs.length = 0
        · simp [switch, hsel, hlen, chanOpsUnlocked]
        · cases h₂ : ext.sendResult .refresh <;> cases h₃ : ext.recvResult <;>
            simp [switch, hsel, hlen, handoff, h₂, h₃, chanOpsUnlocked]
    | none =>
        cases h₁ : ext.find_next s.simple_config.switch_type cmd s.hypr_data
            s.active <;>
          cases h₂ : ext.sendResult .refresh <;> cases h₃ : ext.recvResult <;>
            simp [switch, hsel, handoff, h₁, h₂, h₃, chanOpsUnlocked]
  · cases kill
    · cases hsel : s.launcher.selected with
      | some sel =>
          cases hget : s.launcher.execs[sel]? <;>
            cases h₁ : ext.deactivate_submap <;>
              cases h₂ : ext.sendResult .hide <;>
                cases h₃ : ext.recvResult <;>
                  simp [close, closeCleanup, hsel, hget, h₁, h₂, h₃,
                    chanOpsUnlocked]
      | none =>
          cases hsta : ext.switch_to_active s.active s.hypr_data
          · simp [close, hsel, hsta, chanOpsUnlocked]
          · cases h₁ : ext.deactivate_submap <;>
              cases h₂ : ext.sendResult .hide <;>
                cases h₃ : ext.recvResult <;>
                  simp [close, closeCleanup, hsel, hsta, h₁, h₂, h₃,
                    chanOpsUnlocked]
    · cases h₁ : ext.deactivate_submap <;>
        cases h₂ : ext.sendResult .hide <;>
          cases h₃ : ext.recvResult <;>
            simp [close, closeCleanup, h₁, h₂, h₃, chanOpsUnlocked]

/-- Checked machine subtraction: `some (a - b)` when it does not underflow. -/
def checkedSub (a b : Nat) : Option Nat :=
  if b ≤ a then some (a - b) else none

/-- Checked u16 addition: `some (a + b)` when the sum fits in u16. -/
def checkedAdd16 (a b : Nat) : Option Nat :=
  if a + b < 65536 then some (a + b) else none

/-- The launcher-index update with panicking (checked) integer semantics:
`saturating_sub` never fails on reverse; forwards, the u16 addition and the
usize subtraction `exec_len - 1` are checked. -/
def launcherStepChecked (reverse : Bool) (sel offset exec_len : Nat) :
    Option Nat :=
  if reverse then some (sel - offset)
  else
    match checkedAdd16 sel offset, checkedSub exec_len 1 with
    | some a, some m => some (Nat.min a (m % 65536))
    | _, _ => none

/-- Claim C10: on the `switch` path that updates the launcher index the
launch list is non-empty (the empty-list case returned early), so under the
precondition that `selected + offset` fits in u16 the checked-arithmetic
update succeeds — `exec_len - 1` does not underflow, the reverse branch is
saturating — and agrees with the update `switch` performs: the update is
total and never panics. -/
theorem C10_launcher_update_no_panic (s : SharedData) (flag : Bool)
    (cmd : Command) (cid : Nat) (ext : Ext) (sel : Nat)
    (hsel : s.launcher.selected = some sel)
    (hlen : s.launcher.execs.length ≠ 0)
    (hfit : sel + cmd.offset < 65536) :
    launcherStepChecked cmd.reverse sel cmd.offset s.launcher.execs.length =
      some (launcherStep cmd.reverse sel cmd.offset
        s.launcher.execs.length) ∧
    (switch s flag cmd cid ext).state.launcher.selected =
      some (launcherStep cmd.reverse sel cmd.offset
        s.launcher.execs.length) := by
  constructor
  · cases hrev : cmd.reverse
    · have h₁ : checkedAdd16 sel cmd.offset = some (sel + cmd.offset) := by
        simp [checkedAdd16, hfit]
      have h₂ : checkedSub s.launcher.execs.length 1 =
          some (s.launcher.execs.length - 1) := by
        simp [checkedSub, Nat.one_le_iff_ne_zero.mpr hlen]
      simp [launcherStepChecked, launcherStep, h₁, h₂,
        Nat.mod_eq_of_lt hfit]
    · simp [launcherStepChecked, launcherStep]
  · cases h₂ : ext.sendResult .refresh <;> cases h₃ : ext.recvResult <;>
      simp [switch, hsel, hlen, handoff, h₂, h₃]

/-- Witness for C10 at a concrete launcher state of length 3, index 1,
forward step 5. -/
theorem C10_launcher_update_no_panic_witness :
    launcherStepChecked false 1 5 3 = some (launcherStep false 1 5 3) ∧
    (switch { sampleState with launcher :=
        { selected := some 1, execs := [sampleExec, sampleExec, sampleExec] } }
        false { reverse := false, offset := 5 } 0 extOk).state.launcher.selected
      = some (launcherStep false 1 5 3) :=
  C10_launcher_update_no_panic
    { sampleState with launcher :=
        { selected := some 1, execs := [sampleExec, sampleExec, sampleExec] } }
    false { reverse := false, offset := 5 } 0 extOk 1 rfl (by decide)
    (by decide)

/-- On the launcher path with a non-empty launch list, the selection stored
by `switch` is `launcherStep` of the list length, whatever the channel
outcomes. -/
theorem switch_selected_eq_launcherStep (s : SharedData) (flag : Bool)
    (cmd : Command) (cid : Nat) (ext : Ext) (sel n : Nat)
    (hsel : s.launcher.selected = some sel)
    (hlen : s.launcher.execs.length = n) (hne : n ≠ 0) :
    (switch s flag cmd cid ext).state.launcher.selected =
      some (launcherStep cmd.reverse sel cmd.offset n) := by
  subst hlen
  cases h₂ : ext.sendResult .refresh <;> cases h₃ : ext.recvResult <;>
    simp [switch, hsel, hne, handoff, h₂, h₃]

/-- Claim C4, counterexample: the clamp bound `(exec_len - 1) as u16` is a
truncating cast, so for launch lists longer than 2^16 the claimed clamped
move fails.  With `len = 2^16 + 1`, index 0, forward step 1, the claim says
the index moves to `min (0+1) (len-1) = 1`, but the code computes
`min 1 ((2^16) % 2^16) = 0`; with `len = 2^16`, index `len-1 = 65535`,
forward step 1, the claim says the index stays at 65535, but the wrapping
u16 addition gives `min (65536 % 2^16) 65535 = 0`. -/
theorem C4_counterexample :
    (switch { sampleState with launcher :=
        { selected := some 0, execs := List.replicate 65537 sampleExec } }
        false { reverse := false, offset := 1 } 0 extOk).state.launcher.selected
      = some 0 ∧
    Nat.min (0 + 1) (65537 - 1) = 1 ∧
    (switch { sampleState with launcher :=
        { selected := some 65535, execs := List.replicate 65536 sampleExec } }
        false { reverse := false, offset := 1 } 0 extOk).state.launcher.selected
      = some 0 ∧
    Nat.min (65535 + 1) (65536 - 1) = 65535 := by
  refine ⟨?_, by norm_num, ?_, by norm_num⟩
  · rw [switch_selected_eq_launcherStep _ _ _ _ _ 0 65537 rfl
      (List.length_replicate 65537 sampleExec) (by norm_num)]
    norm_num [launcherStep]
  · rw [switch_selected_eq_launcherStep _ _ _ _ _ 65535 65536 rfl
      (List.length_replicate 65536 sampleExec) (by norm_num)]
    norm_num [launcherStep]

/-- Claim C4 as amended: for every launcher-mode state with a non-empty
launch list of length `len ≤ 2^16`, current index in `[0, len-1]`, and (for
a forward move) `index + step < 2^16`, `switch` moves the index by `step` in
the requested direction clamped to `[0, len-1]` with no wraparound — in
particular index 0 with `reverse = true` stays at 0 (saturating) and index
`len-1` with `reverse = false` stays at `len-1` — and the new index is again
in `[0, len-1]`. -/
theorem C4_launcher_clamped (s : SharedData) (flag : Bool) (cmd : Command)
    (cid : Nat) (ext : Ext) (sel : Nat)
    (hsel : s.launcher.selected = some sel)
    (hne : s.launcher.execs.length ≠ 0)
    (hlen : s.launcher.execs.length ≤ 65536)
    (hidx : sel ≤ s.launcher.execs.length - 1)
    (hfit : cmd.reverse = false → sel + cmd.offset < 65536) :
    (switch s flag cmd cid ext).state.launcher.selected =
      some (if cmd.reverse then sel - cmd.offset
        else Nat.min (sel + cmd.offset) (s.launcher.execs.length - 1)) ∧
    (if cmd.reverse then sel - cmd.offset
      else Nat.min (sel + cmd.offset) (s.launcher.execs.length - 1)) ≤
      s.launcher.execs.length - 1 := by
  have hstep : launcherStep cmd.reverse sel cmd.offset
      s.launcher.execs.length =
      if cmd.reverse then sel - cmd.offset
      else Nat.min (sel + cmd.offset) (s.launcher.execs.length - 1) := by
    cases hrev : cmd.reverse
    · have h₁ : (sel + cmd.offset) % 65536 = sel + cmd.offset :=
        Nat.mod_eq_of_lt (hfit hrev)
      have h₂ : (s.launcher.execs.length - 1) % 65536 =
          s.launcher.execs.length - 1 :=
        Nat.mod_eq_of_lt (by omega)
      simp [launcherStep, h₁, h₂]
    · simp [launcherStep]
  constructor
  · rw [← hstep]
    cases h₂ : ext.sendResult .refresh <;> cases h₃ : ext.recvResult <;>
      simp [switch, hsel, hne, handoff, h₂, h₃]
  · cases hrev : cmd.reverse
    · simp
    · simp
      omega

/-- Witness for the amended C4 at a concrete launcher state of length 3,
index 1, forward step 5: the index clamps to 2 = len - 1. -/
theorem C4_launcher_clamped_witness :
    (switch { sampleState with launcher :=
        { selected := some 1, execs := [sampleExec, sampleExec, sampleExec] } }
        false { reverse := false, offset := 5 } 0 extOk).state.launcher.selected
      = some (if false then 1 - 5 else Nat.min (1 + 5) (3 - 1)) ∧
    (if false then 1 - 5 else Nat.min (1 + 5) (3 - 1)) ≤ 3 - 1 :=
  C4_launcher_clamped _ _ _ _ _ _ rfl (by decide) (by decide) (by decide)
    (fun _ => by decide)

/-- Claim C1, counterexample: when the focus-commit step fails, `close` does
skip the cleanup sequence.  With no launcher selection, `kill = false` and
`switch_to_active` returning an error, `close` returns that error while the
`ACTIVE` flag stays `true` and the trace ends at the lock release: no
keybinding release (`deactivateSubmap`), no flag clear, no `Hide` send. -/
theorem C1_counterexample :
    (close sampleState true false 0
        { extOk with switch_to_active :=
            fun _ _ => Except.error "focus failed" }).res =
      Except.error "focus failed" ∧
    (close sampleState true false 0
        { extOk with switch_to_active :=
            fun _ _ => Except.error "focus failed" }).activeFlag = true ∧
    (close sampleState true false 0
        { extOk with switch_to_active :=
            fun _ _ => Except.error "focus failed" }).trace =
      [.lockAcquire, .switchToActive .unknown, .lockRelease] :=
  ⟨rfl, rfl, rfl⟩

/-- Claim C1 as amended: the cleanup sequence of `close` runs only on the
paths that survive the focus-commit step.  Whenever the commit step succeeds
or is skipped (`kill = true`, or launcher mode), `close` invokes the
keybinding release, and — the release succeeding — clears the "overlay
open" flag and sends the `Hide` hand-off; a commit-focus error instead
aborts `close` before any of these (see the counterexample). -/
theorem C1_close_cleanup_amended (s : SharedData) (flag : Bool) (kill : Bool)
    (cid : Nat) (ext : Ext)
    (hcommit : kill = true ∨ s.launcher.selected.isSome = true ∨
      ext.switch_to_active s.active s.hypr_data = .ok ())
    (hrelease : ext.deactivate_submap = .ok ()) :
    Effect.deactivateSubmap ∈ (close s flag kill cid ext).trace ∧
    (close s flag kill cid ext).activeFlag = false ∧
    Effect.send .hide cid ∈ (close s flag kill cid ext).trace := by
  have hc : ∀ tr,
      Effect.deactivateSubmap ∈ (closeCleanup s flag cid ext tr).trace ∧
      (closeCleanup s flag cid ext tr).activeFlag = false ∧
      Effect.send .hide cid ∈ (closeCleanup s flag cid ext tr).trace := by
    intro tr
    cases h₂ : ext.sendResult .hide <;> cases h₃ : ext.recvResult <;>
      simp [closeCleanup, hrelease, h₂, h₃]
  cases kill with
  | true => exact hc _
  | false =>
      cases hsel : s.launcher.selected with
      | some sel =>
          cases hget : s.launcher.execs[sel]? with
          | some ex =>
              simpa [close, hsel, hget] using
                hc [.lockAcquire, .runProgram ex.run ex.path ex.terminal,
                  .lockRelease]
          | none =>
              simpa [close, hsel, hget] using
                hc [.lockAcquire, .lockRelease]
      | none =>
          rcases hcommit with h | h | h
          · exact absurd h (by simp)
          · rw [hsel] at h
            exact absurd h (by simp)
          · simpa [close, hsel, h] using
              hc [.lockAcquire, .switchToActive s.active, .lockRelease]

/-- Witness for the amended C1: `close` with `kill = true` and succeeding
collaborators releases the keybinding, clears the flag and sends `Hide`. -/
theorem C1_close_cleanup_amended_witness :
    Effect.deactivateSubmap ∈ (close sampleState true true 0 extOk).trace ∧
    (close sampleState true true 0 extOk).activeFlag = false ∧
    Effect.send .hide 0 ∈ (close sampleState true true 0 extOk).trace :=
  C1_close_cleanup_amended sampleState true true 0 extOk (Or.inl rfl) rfl

/-- Claim C2, counterexample: a successful `init` does not discard a leftover
launcher selection.  Starting from a state with
`pending_launch_selection = some 3`, `init` succeeds and the selection is
still `some 3` afterwards (present, not absent). -/
theorem C2_counterexample :
    (init { sampleState with launcher :=
        { selected := some 3, execs := [sampleExec] } }
        false sampleConfig sampleGuiConfig 0 extOk).res = .ok () ∧
    (init { sampleState with launcher :=
        { selected := some 3, execs := [sampleExec] } }
        false sampleConfig sampleGuiConfig 0 extOk).state.launcher.selected =
      some 3 :=
  ⟨rfl, rfl⟩

/-- Claim C2 as amended: after a successful target collection, `init`
overwrites `active` (with the projected triple), `simple_config`,
`gui_config` and `hypr_data`, but leaves the launcher sub-state — including
any leftover `pending_launch_selection` — unchanged rather than discarding
it. -/
theorem C2_init_overwrites_except_launcher (s : SharedData) (flag : Bool)
    (config : Config) (gcfg : GuiConfig) (cid : Nat) (ext : Ext)
    (cd : HyprData) (t : ActiveTriple)
    (h : ext.collect_data config = .ok (cd, t)) :
    (init s flag config gcfg cid ext).state =
      { s with active := projectActive config.switch_type t,
               simple_config := config, gui_config := gcfg,
               hypr_data := cd } ∧
    (init s flag config gcfg cid ext).state.launcher = s.launcher := by
  cases h₂ : ext.activate_submap gcfg <;>
    cases h₃ : ext.sendResult .new <;> cases h₄ : ext.recvResult <;>
      simp [init, h, handoff, h₂, h₃, h₄]

/-- Witness for the amended C2 at the sample state with the all-succeeding
collaborators. -/
theorem C2_init_overwrites_except_launcher_witness :
    (init sampleState false sampleConfig sampleGuiConfig 0 extOk).state =
      { sampleState with
          active := projectActive sampleConfig.switch_type
            (some 42, none, none),
          simple_config := sampleConfig, gui_config := sampleGuiConfig,
          hypr_data := sampleHyprData } ∧
    (init sampleState false sampleConfig sampleGuiConfig 0
        extOk).state.launcher = sampleState.launcher :=
  C2_init_overwrites_except_launcher sampleState false sampleConfig
    sampleGuiConfig 0 extOk sampleHyprData (some 42, none, none) rfl

/-- Claim C3, counterexample: keybinding acquire/release failures are not
merely logged.  When `activate_submap` fails, `init` returns its error, the
`ACTIVE` flag is not set and no `New` hand-off is sent; when
`deactivate_submap` fails, `close` returns its error, the flag is not
cleared (stays `true`) and no `Hide` hand-off is sent. -/
theorem C3_counterexample :
    (init sampleState false sampleConfig sampleGuiConfig 0
        { extOk with activate_submap :=
            fun _ => Except.error "submap grab failed" }).res =
      Except.error "submap grab failed" ∧
    (init sampleState false sampleConfig sampleGuiConfig 0
        { extOk with activate_submap :=
            fun _ => Except.error "submap grab failed" }).activeFlag =
      false ∧
    (init sampleState false sampleConfig sampleGuiConfig 0
        { extOk with activate_submap :=
            fun _ => Except.error "submap grab failed" }).trace =
      [.collectData, .lockAcquire, .lockRelease, .activateSubmap] ∧
    (close sampleState true true 0
        { extOk with deactivate_submap :=
            Except.error "submap ungrab failed" }).res =
      Except.error "submap ungrab failed" ∧
    (close sampleState true true 0
        { extOk with deactivate_submap :=
            Except.error "submap ungrab failed" }).activeFlag = true ∧
    (close sampleState true true 0
        { extOk with deactivate_submap :=
            Except.error "submap ungrab failed" }).trace =
      [.lockAcquire, .lockRelease, .deactivateSubmap] :=
  ⟨rfl, rfl, rfl, rfl, rfl, rfl⟩

/-- Claim C3 as amended: a keybinding acquire failure during `init` and a
release failure during `close` are propagated with `?`, not merely logged:
the command returns the collaborator's error to the caller, the "overlay
open" flag is left as it was, and the remaining steps — the flag write and
the hand-off send — are skipped. -/
theorem C3_submap_error_propagates (s : SharedData) (flag : Bool)
    (kill : Bool) (config : Config) (gcfg : GuiConfig) (cid : Nat) (ext : Ext)
    (cd : HyprData) (t : ActiveTriple) (e₁ e₂ : String)
    (hcol : ext.collect_data config = .ok (cd, t))
    (hact : ext.activate_submap gcfg = .error e₁)
    (hdeact : ext.deactivate_submap = .error e₂)
    (hcommit : kill = true ∨ s.launcher.selected.isSome = true ∨
      ext.switch_to_active s.active s.hypr_data = .ok ()) :
    (init s flag config gcfg cid ext).res = .error e₁ ∧
    (init s flag config gcfg cid ext).activeFlag = flag ∧
    Effect.setActiveFlag true ∉ (init s flag config gcfg cid ext).trace ∧
    Effect.send .new cid ∉ (init s flag config gcfg cid ext).trace ∧
    (close s flag kill cid ext).res = .error e₂ ∧
    (close s flag kill cid ext).activeFlag = flag ∧
    Effect.setActiveFlag false ∉ (close s flag kill cid ext).trace ∧
    Effect.send .hide cid ∉ (close s flag kill cid ext).trace := by
  have hc : ∀ tr, Effect.setActiveFlag false ∉ tr →
      Effect.send .hide cid ∉ tr →
      (closeCleanup s flag cid ext tr).res = .error e₂ ∧
      (closeCleanup s flag cid ext tr).activeFlag = flag ∧
      Effect.setActiveFlag false ∉ (closeCleanup s flag cid ext tr).trace ∧
      Effect.send .hide cid ∉ (closeCleanup s flag cid ext tr).trace := by
    intro tr h₁ h₂
    simp [closeCleanup, hdeact, h₁, h₂]
  have hclose : (close s flag kill cid ext).res = .error e₂ ∧
      (close s flag kill cid ext).activeFlag = flag ∧
      Effect.setActiveFlag false ∉ (close s flag kill cid ext).trace ∧
      Effect.send .hide cid ∉ (close s flag kill cid ext).trace := by
    cases kill with
    | true => exact hc _ (by simp) (by simp)
    | false =>
        cases hsel : s.launcher.selected with
        | some sel =>
            cases hget : s.launcher.execs[sel]? with
            | some ex =>
                simpa [close, hsel, hget] using
                  hc [.lockAcquire, .runProgram ex.run ex.path ex.terminal,
                    .lockRelease] (by simp) (by simp)
            | none =>
                simpa [close, hsel, hget] using
                  hc [.lockAcquire, .lockRelease] (by simp) (by simp)
        | none =>
            rcases hcommit with h | h | h
            · exact absurd h (by simp)
            · rw [hsel] at h
              exact absurd h (by simp)
            · simpa [close, hsel, h] using
                hc [.lockAcquire, .switchToActive s.active, .lockRelease]
                  (by simp) (by simp)
  refine ⟨by simp [init, hcol, hact], by simp [init, hcol, hact],
    by simp [init, hcol, hact], by simp [init, hcol, hact],
    hclose.1, hclose.2.1, hclose.2.2.1, hclose.2.2.2⟩

/-- Witness for the amended C3 with concrete failing submap collaborators
and `kill = true`. -/
theorem C3_submap_error_propagates_witness :
    (init sampleState false sampleConfig sampleGuiConfig 0
        { extOk with
            activate_submap := fun _ => Except.error "grab",
            deactivate_submap := Except.error "ungrab" }).res =
      .error "grab" ∧
    (init sampleState false sampleConfig sampleGuiConfig 0
        { extOk with
            activate_submap := fun _ => Except.error "grab",
            deactivate_submap := Except.error "ungrab" }).activeFlag =
      false ∧
    Effect.setActiveFlag true ∉
      (init sampleState false sampleConfig sampleGuiConfig 0
        { extOk with
            activate_submap := fun _ => Except.error "grab",
            deactivate_submap := Except.error "ungrab" }).trace ∧
    Effect.send .new 0 ∉
      (init sampleState false sampleConfig sampleGuiConfig 0
        { extOk with
            activate_submap := fun _ => Except.error "grab",
            deactivate_submap := Except.error "ungrab" }).trace ∧
    (close sampleState false true 0
        { extOk with
            activate_submap := fun _ => Except.error "grab",
            deactivate_submap := Except.error "ungrab" }).res =
      .error "ungrab" ∧
    (close sampleState false true 0
        { extOk with
            activate_submap := fun _ => Except.error "grab",
            deactivate_submap := Except.error "ungrab" }).activeFlag =
      false ∧
    Effect.setActiveFlag false ∉
      (close sampleState false true 0
        { extOk with
            activate_submap := fun _ => Except.error "grab",
            deactivate_submap := Except.error "ungrab" }).trace ∧
    Effect.send .hide 0 ∉
      (close sampleState false true 0
        { extOk with
            activate_submap := fun _ => Except.error "grab",
            deactivate_submap := Except.error "ungrab" }).trace :=
  C3_submap_error_propagates sampleState false true sampleConfig
    sampleGuiConfig 0
    { extOk with
        activate_submap := fun _ => Except.error "grab",
        deactivate_submap := Except.error "ungrab" }
    sampleHyprData (some 42, none, none) "grab" "ungrab" rfl rfl rfl
    (Or.inl rfl)

end Hyprswitch
